import Mathlib

set_option linter.unusedSectionVars false

/-!
Verification development for the as-cache adaptive cache core.

The Go source is embedded shallowly:

* `MockPolicy` embeds the map-backed `mockPolicy` from `cache_test.go`
  (src/unnamed/part_003), the repository's Policy implementation driven by
  the core in its tests; Go maps are modelled as association lists.
* `AdaptiveCache` with `NewAdaptiveCache`, `get`, `add`, `remove` and
  `tryChangePolicy` embeds the orchestrator of src/unnamed/part_004 (the
  fuller copy of cache.go).  Go's `nil`-policy method-call panic (indexing
  the policy map at an absent key) is modelled by `Option`: `none` is a
  panic.
* The `Bandit` interface is embedded as an instrumented state: recordStats
  appends the report (as the tests' recordingBandit does) and selectPolicy
  returns a fixed choice and bumps a call counter, making invocations
  observable.
* `MigCache` and its operations model the migration layer (cold / warm /
  gradual) that the repository's tests and codemaps reference; see the doc
  comments marked "Modelled from the spec".
-/

/-- PolicyType from models.go: Undefined, LRU, LFU. -/
inductive PolicyType where
  | undefined
  | lru
  | lfu
deriving DecidableEq, Repr

/-- MigrationStrategy from models.go: cold, warm, gradual. -/
inductive MigrationStrategy where
  | cold
  | warm
  | gradual
deriving DecidableEq, Repr

/-- PolicyStats from models.go (int64 counters modelled as Int). -/
structure PolicyStats where
  hits : Int
  misses : Int
deriving DecidableEq, Repr

/-- ShadowStats from models.go: the per-epoch report handed to the bandit. -/
structure ShadowStats where
  policy : PolicyType
  hits : Int
  misses : Int
deriving DecidableEq, Repr

/-- Lookup in an association list modelling a Go map: first entry wins. -/
def alookup {κ α : Type} [DecidableEq κ] (k : κ) : List (κ × α) → Option α
  | [] => none
  | e :: es => if e.1 = k then some e.2 else alookup k es

/-- Insert/replace in an association list modelling a Go map write `m[k] = v`. -/
def aset {κ α : Type} [DecidableEq κ] (k : κ) (v : α) : List (κ × α) → List (κ × α)
  | [] => [(k, v)]
  | e :: es => if e.1 = k then (k, v) :: es else e :: aset k v es

/-- Deletion from an association list modelling Go's `delete(m, k)`. -/
def adel {κ α : Type} [DecidableEq κ] (k : κ) (l : List (κ × α)) : List (κ × α) :=
  l.filter (fun e => if e.1 = k then false else true)

/-- The map-backed mockPolicy of cache_test.go: the Policy implementation the
core is exercised with.  `data` is the Go map, `cap` the capacity, `ptype`
the policy tag and `stats` the hit/miss counters. -/
structure MockPolicy (K V : Type) where
  data : List (K × V)
  cap : Nat
  ptype : PolicyType
  stats : PolicyStats
deriving DecidableEq, Repr

variable {K V : Type} [DecidableEq K] [DecidableEq V]

/-- mockPolicy.Add: store the pair, report whether the key was present. -/
def MockPolicy.add (p : MockPolicy K V) (k : K) (v : V) : Bool × MockPolicy K V :=
  ((alookup k p.data).isSome, { p with data := aset k v p.data })

/-- mockPolicy.Get: lookup, bump hits on success and misses on failure;
`z` is Go's zero value of V returned on a miss. -/
def MockPolicy.get (z : V) (p : MockPolicy K V) (k : K) : (V × Bool) × MockPolicy K V :=
  match alookup k p.data with
  | some v => ((v, true), { p with stats := { p.stats with hits := p.stats.hits + 1 } })
  | none => ((z, false), { p with stats := { p.stats with misses := p.stats.misses + 1 } })

/-- mockPolicy.Peek: lookup without touching the counters. -/
def MockPolicy.peek (z : V) (p : MockPolicy K V) (k : K) : V × Bool :=
  match alookup k p.data with
  | some v => (v, true)
  | none => (z, false)

/-- mockPolicy.Contains. -/
def MockPolicy.contains (p : MockPolicy K V) (k : K) : Bool :=
  (alookup k p.data).isSome

/-- mockPolicy.Remove: report presence and delete. -/
def MockPolicy.remove (p : MockPolicy K V) (k : K) : Bool × MockPolicy K V :=
  ((alookup k p.data).isSome, { p with data := adel k p.data })

/-- mockPolicy.Purge: drop all data, keep counters. -/
def MockPolicy.purge (p : MockPolicy K V) : MockPolicy K V :=
  { p with data := [] }

/-- mockPolicy.Keys. -/
def MockPolicy.keys (p : MockPolicy K V) : List K :=
  p.data.map Prod.fst

/-- mockPolicy.Len. -/
def MockPolicy.len (p : MockPolicy K V) : Nat :=
  p.data.length

/-- mockPolicy.ResetStats. -/
def MockPolicy.resetStats (p : MockPolicy K V) : MockPolicy K V :=
  { p with stats := { hits := 0, misses := 0 } }

/-- The Bandit interface as an instrumented state: `next` is the policy the
learner currently favours, `records` accumulates every RecordStats report
(as the tests' recordingBandit does) and `selectCalls` counts SelectPolicy
invocations so that bandit activity is observable. -/
structure Bandit where
  next : PolicyType
  records : List ShadowStats
  selectCalls : Nat
deriving DecidableEq, Repr

/-- Bandit.RecordStats: append the report. -/
def Bandit.recordStats (b : Bandit) (s : ShadowStats) : Bandit :=
  { b with records := b.records ++ [s] }

/-- Bandit.SelectPolicy: return the favoured policy and count the call. -/
def Bandit.selectPolicy (b : Bandit) : PolicyType × Bandit :=
  (b.next, { b with selectCalls := b.selectCalls + 1 })

/-- Settings from cache.go (EpochDuration drives only the background ticker). -/
structure Settings where
  epochDuration : Int
  evictPartialCapacityFilling : Bool
deriving DecidableEq, Repr

/-- AdaptiveCache from src/unnamed/part_004: active tag, previous tag, the
PolicyType-keyed policy map, the bandit and the settings. -/
structure AdaptiveCache (K V : Type) where
  activePolicy : PolicyType
  oldPolicy : PolicyType
  policies : List (PolicyType × MockPolicy K V)
  bandit : Bandit
  settings : Settings
deriving DecidableEq, Repr

/-- ErrEmptyPolicies from cache.go. -/
def ErrEmptyPoliciesMsg : String := "must provide non zero policies size"

/-- The constructor's policy-map build: `availablePolicies[policy.GetType()] = policy`
for each supplied policy in order. -/
def buildPolicies (pols : List (MockPolicy K V)) : List (PolicyType × MockPolicy K V) :=
  pols.foldl (fun m p => aset p.ptype p m) []

/-- NewAdaptiveCache from src/unnamed/part_004.  The empty-policy check comes
first and returns ErrEmptyPolicies.  Otherwise the constructor dereferences
the settings pointer (a nil pointer panics, modelled as `none` settings) and
calls time.NewTicker(settings.EpochDuration), which panics for a non-positive
duration — both panics are modelled as a `none` result.  Only then is the
cache built, with the first supplied policy's type active. -/
def NewAdaptiveCache (pols : List (MockPolicy K V)) (bandit : Bandit)
    (settings : Option Settings) : Option (Except String (AdaptiveCache K V)) :=
  match pols with
  | [] => some (.error ErrEmptyPoliciesMsg)
  | p0 :: rest =>
    match settings with
    | none => none
    | some s =>
      if s.epochDuration ≤ 0 then none
      else
        some (.ok { activePolicy := p0.ptype
                    oldPolicy := PolicyType.undefined
                    policies := buildPolicies (p0 :: rest)
                    bandit := bandit
                    settings := s })

/-- The shadow loop shared by Get/Add/Remove: apply `f` to every policy in the
map whose type differs from the active one (`if policy.GetType() == c.activePolicy
{ continue }`). -/
def mapShadows (act : PolicyType) (f : MockPolicy K V → MockPolicy K V)
    (ps : List (PolicyType × MockPolicy K V)) : List (PolicyType × MockPolicy K V) :=
  ps.map (fun e => if e.2.ptype = act then e else (e.1, f e.2))

/-- The stats loop of tryChangePolicy: for every non-active policy read its
stats, reset them and hand a ShadowStats report to the bandit, in iteration
order. -/
def shadowReport (act : PolicyType) (ps : List (PolicyType × MockPolicy K V)) (b : Bandit) :
    List (PolicyType × MockPolicy K V) × Bandit :=
  match ps with
  | [] => ([], b)
  | e :: es =>
    if e.2.ptype = act then
      let r := shadowReport act es b
      (e :: r.1, r.2)
    else
      let b1 := b.recordStats { policy := e.2.ptype, hits := e.2.stats.hits, misses := e.2.stats.misses }
      let r := shadowReport act es b1
      ((e.1, e.2.resetStats) :: r.1, r.2)

/-- The body of tryChangePolicy after the partial-fill gate: run the stats
loop, ask the bandit, and switch the active pointer when the answer differs. -/
def tickBody (c : AdaptiveCache K V) : Bool × AdaptiveCache K V :=
  let r := shadowReport c.activePolicy c.policies c.bandit
  let s := r.2.selectPolicy
  let c1 := { c with policies := r.1, bandit := s.2 }
  if s.1 ≠ c.activePolicy then
    (true, { c1 with activePolicy := s.1, oldPolicy := c.activePolicy })
  else
    (false, c1)

/-- tryChangePolicy from src/unnamed/part_004.  The gate
`!c.settings.EvictPartialCapacityFilling && Len() != Cap()` short-circuits, so
the active policy is only looked up (and can only panic) when the flag is
false. -/
def tryChangePolicy (c : AdaptiveCache K V) : Option (Bool × AdaptiveCache K V) :=
  if c.settings.evictPartialCapacityFilling then some (tickBody c)
  else
    match alookup c.activePolicy c.policies with
    | none => none
    | some ap =>
      if ap.len ≠ ap.cap then some (false, c)
      else some (tickBody c)

/-- Get from src/unnamed/part_004: shadow-read every non-active policy, then
read the active policy and return its result. -/
def AdaptiveCache.get (z : V) (c : AdaptiveCache K V) (k : K) :
    Option ((V × Bool) × AdaptiveCache K V) :=
  let ps := mapShadows c.activePolicy (fun m => (m.get z k).2) c.policies
  match alookup c.activePolicy ps with
  | none => none
  | some ap =>
    let r := ap.get z k
    some (r.1, { c with policies := aset c.activePolicy r.2 ps })

/-- Add from src/unnamed/part_004: shadow-add the zero value `z` to every
non-active policy, then add the real pair to the active policy last and
propagate its evicted flag. -/
def AdaptiveCache.add (z : V) (c : AdaptiveCache K V) (k : K) (v : V) :
    Option (Bool × AdaptiveCache K V) :=
  let ps := mapShadows c.activePolicy (fun m => (m.add k z).2) c.policies
  match alookup c.activePolicy ps with
  | none => none
  | some ap =>
    let r := ap.add k v
    some (r.1, { c with policies := aset c.activePolicy r.2 ps })

/-- Remove from src/unnamed/part_004: remove from every non-active policy,
then remove from the active policy and return its presence report. -/
def AdaptiveCache.remove (c : AdaptiveCache K V) (k : K) :
    Option (Bool × AdaptiveCache K V) :=
  let ps := mapShadows c.activePolicy (fun m => (m.remove k).2) c.policies
  match alookup c.activePolicy ps with
  | none => none
  | some ap =>
    let r := ap.remove k
    some (r.1, { c with policies := aset c.activePolicy r.2 ps })

/-- Well-formedness of the policy map: every entry is keyed by its policy's
own type, as the constructor guarantees. -/
def keysMatch (ps : List (PolicyType × MockPolicy K V)) : Prop :=
  ∀ e ∈ ps, e.1 = e.2.ptype

/-- Modelled from the spec: the migration-capable AdaptiveCache state.  The
full cache.go (413 lines per the repository codemaps) carrying the fields
`migrating`, `migrateFrom`, `migrationKeys` and `migrationRealKeys` is not in
src/ — only its tests (cache_test.go) and the codemaps reference them — so the
state block follows §3 MigrationState of the spec and the codemap field
names. -/
structure MigCache (K V : Type) where
  activePolicy : PolicyType
  oldPolicy : PolicyType
  policies : List (PolicyType × MockPolicy K V)
  migrating : Bool
  migrateFrom : PolicyType
  migrationKeys : List K
  migrationRealKeys : List K
deriving DecidableEq, Repr

/-- Modelled from the spec: `clearMigrationState()` (missing from src/, called
by cache_test.go) resets every gradual-migration field. -/
def MigCache.clearMigrationState (c : MigCache K V) : MigCache K V :=
  { c with migrating := false, migrateFrom := PolicyType.undefined,
           migrationKeys := [], migrationRealKeys := [] }

/-- Modelled from the spec: the warm strategy's bulk copy — snapshot the
source's keys, read each value with peek and add it to the (purged) target. -/
def warmCopy (z : V) (src dst : MockPolicy K V) : MockPolicy K V :=
  src.keys.foldl
    (fun d k =>
      let r := src.peek z k
      if r.2 then (d.add k r.1).2 else d)
    dst

/-- Modelled from the spec: `migrateData(from, to)` (missing from src/, called
by cache_test.go), §4.1.3.  Cold purges the target; warm purges then bulk
copies; gradual purges the target and opens the lazy window with the source's
key snapshot as pending list and eligible set. -/
def MigCache.migrateData (strat : MigrationStrategy) (z : V) (c : MigCache K V)
    (fromT toT : PolicyType) : Option (MigCache K V) :=
  match strat with
  | .cold =>
    match alookup toT c.policies with
    | none => none
    | some dst => some { c with policies := aset toT dst.purge c.policies }
  | .warm =>
    match alookup toT c.policies, alookup fromT c.policies with
    | some dst, some src =>
      some { c with policies := aset toT (warmCopy z src dst.purge) c.policies }
    | _, _ => none
  | .gradual =>
    match alookup toT c.policies, alookup fromT c.policies with
    | some dst, some src =>
      some { c with policies := aset toT dst.purge c.policies,
                    migrating := true, migrateFrom := fromT,
                    migrationKeys := src.keys, migrationRealKeys := src.keys }
    | _, _ => none

/-- Modelled from the spec: a policy switch (§4.1.2 step 4, and the tests'
triggerSwitch helper) — abandon any in-progress migration, run the migration
strategy from the outgoing active to the winner, then repoint active. -/
def MigCache.switchTo (strat : MigrationStrategy) (z : V) (c : MigCache K V)
    (toT : PolicyType) : Option (MigCache K V) :=
  if toT = c.activePolicy then some c
  else
    match (c.clearMigrationState).migrateData strat z c.activePolicy toT with
    | none => none
    | some c1 => some { c1 with activePolicy := toT, oldPolicy := c.activePolicy }

/-- Modelled from the spec: the drain step of §4.1.3 — pop entries from the
tail of the pending list (here: the head of the reversed list), skip
non-eligible keys, and migrate exactly one effective key via source peek.
Returns the remaining reversed pending list, the eligible set and the updated
active policy. -/
def drainStep (z : V) (src : MockPolicy K V) :
    List K → List K → MockPolicy K V → List K × List K × MockPolicy K V
  | [], elig, act => ([], elig, act)
  | kk :: restRev, elig, act =>
    if kk ∈ elig then
      let r := src.peek z kk
      if r.2 then (restRev, elig.erase kk, (act.add kk r.1).2)
      else (restRev, elig.erase kk, act)
    else drainStep z src restRev elig act

/-- Modelled from the spec: get with gradual promotion (§4.1.1, §4.1.3) — the
promotion branch of the full cache.go Get is missing from src/.  Shadow-read
every non-active policy, read the active policy; on a miss during an active
window with the key still eligible, consult the source with peek, insert a
found value into the active policy and return it as a hit; either way the key
leaves the eligible set, and the window closes when the set empties. -/
def MigCache.getM (z : V) (c : MigCache K V) (k : K) :
    Option ((V × Bool) × MigCache K V) :=
  let ps := mapShadows c.activePolicy (fun m => (m.get z k).2) c.policies
  match alookup c.activePolicy ps with
  | none => none
  | some ap =>
    let r := ap.get z k
    let c1 : MigCache K V := { c with policies := aset c.activePolicy r.2 ps }
    if r.1.2 then some (r.1, c1)
    else
      if c1.migrating ∧ k ∈ c1.migrationRealKeys then
        match alookup c1.migrateFrom c1.policies with
        | none => none
        | some src =>
          let pr := src.peek z k
          if pr.2 then
            match alookup c1.activePolicy c1.policies with
            | none => none
            | some ap2 =>
              let c2 : MigCache K V :=
                { c1 with policies := aset c1.activePolicy (ap2.add k pr.1).2 c1.policies,
                          migrationRealKeys := c1.migrationRealKeys.erase k }
              let c3 := if c2.migrationRealKeys.isEmpty then c2.clearMigrationState else c2
              some ((pr.1, true), c3)
          else
            let c2 : MigCache K V := { c1 with migrationRealKeys := c1.migrationRealKeys.erase k }
            let c3 := if c2.migrationRealKeys.isEmpty then c2.clearMigrationState else c2
            some ((z, false), c3)
      else some (r.1, c1)

/-- Modelled from the spec: add during a migration window (§4.1.1, §4.1.3) —
the drain branch of the full cache.go Add is missing from src/.  Shadow-add
the zero value to every non-active policy; if a gradual window is open, mark
the key ineligible (the shadow-add overwrote the source) and drain one
still-eligible key from the source, closing the window when the eligible set
empties; finally add the real pair to the active policy last. -/
def MigCache.addM (z : V) (c : MigCache K V) (k : K) (v : V) :
    Option (Bool × MigCache K V) :=
  let ps := mapShadows c.activePolicy (fun m => (m.add k z).2) c.policies
  let c1 : MigCache K V := { c with policies := ps }
  if c1.migrating then
    match alookup c1.migrateFrom c1.policies, alookup c1.activePolicy c1.policies with
    | some src, some act =>
      let elig0 := c1.migrationRealKeys.erase k
      let d := drainStep z src c1.migrationKeys.reverse elig0 act
      let c2 : MigCache K V :=
        { c1 with policies := aset c1.activePolicy d.2.2 c1.policies,
                  migrationKeys := d.1.reverse, migrationRealKeys := d.2.1 }
      let c3 := if c2.migrationRealKeys.isEmpty then c2.clearMigrationState else c2
      match alookup c3.activePolicy c3.policies with
      | none => none
      | some ap =>
        let r := ap.add k v
        some (r.1, { c3 with policies := aset c3.activePolicy r.2 c3.policies })
    | _, _ => none
  else
    match alookup c1.activePolicy c1.policies with
    | none => none
    | some ap =>
      let r := ap.add k v
      some (r.1, { c1 with policies := aset c1.activePolicy r.2 c1.policies })

/-- Modelled from the spec: the migration-capable constructor — identical to
NewAdaptiveCache on the shared fields, with an inactive migration block. -/
def NewMigCache (pols : List (MockPolicy K V)) : Except String (MigCache K V) :=
  match pols with
  | [] => .error ErrEmptyPoliciesMsg
  | p0 :: rest =>
    .ok { activePolicy := p0.ptype
          oldPolicy := PolicyType.undefined
          policies := buildPolicies (p0 :: rest)
          migrating := false
          migrateFrom := PolicyType.undefined
          migrationKeys := []
          migrationRealKeys := [] }

/-- Len() delegated to the active policy. -/
def MigCache.lenM (c : MigCache K V) : Option Nat :=
  (alookup c.activePolicy c.policies).map MockPolicy.len

/-- Run a sequence of external adds through the migration-capable cache. -/
def applyAddsM (z : V) (c : MigCache K V) : List (K × V) → Option (MigCache K V)
  | [] => some c
  | kv :: rest =>
    match c.addM z kv.1 kv.2 with
    | none => none
    | some r => applyAddsM z r.2 rest

/-- A fresh LRU mock policy of capacity 10, as built by the tests' makeCache. -/
def lruP0 : MockPolicy String Int :=
  { data := [], cap := 10, ptype := PolicyType.lru, stats := { hits := 0, misses := 0 } }

/-- A fresh LFU mock policy of capacity 10, as built by the tests' makeCache. -/
def lfuP0 : MockPolicy String Int :=
  { data := [], cap := 10, ptype := PolicyType.lfu, stats := { hits := 0, misses := 0 } }

/-- Scenario S1 state after add("a",1), add("b",2) on the fresh two-policy cache. -/
def cw1 : MigCache String Int :=
  { activePolicy := PolicyType.lru
    oldPolicy := PolicyType.undefined
    policies :=
      [(PolicyType.lru, { data := [("a", 1), ("b", 2)], cap := 10, ptype := PolicyType.lru,
                          stats := { hits := 0, misses := 0 } }),
       (PolicyType.lfu, { data := [("a", 0), ("b", 0)], cap := 10, ptype := PolicyType.lfu,
                          stats := { hits := 0, misses := 0 } })]
    migrating := false
    migrateFrom := PolicyType.undefined
    migrationKeys := []
    migrationRealKeys := [] }

/-- Scenario S4 state after add("a",42) and a gradual switch to LFU. -/
def s4c : MigCache String Int :=
  { activePolicy := PolicyType.lfu
    oldPolicy := PolicyType.lru
    policies :=
      [(PolicyType.lru, { data := [("a", 42)], cap := 10, ptype := PolicyType.lru,
                          stats := { hits := 0, misses := 0 } }),
       (PolicyType.lfu, { data := [], cap := 10, ptype := PolicyType.lfu,
                          stats := { hits := 0, misses := 0 } })]
    migrating := true
    migrateFrom := PolicyType.lru
    migrationKeys := ["a"]
    migrationRealKeys := ["a"] }

/-- A single-policy cache whose bandit favours the unregistered LFU type. -/
def c3cache : AdaptiveCache Nat Int :=
  { activePolicy := PolicyType.lru
    oldPolicy := PolicyType.undefined
    policies := [(PolicyType.lru, { data := [], cap := 0, ptype := PolicyType.lru,
                                    stats := { hits := 0, misses := 0 } })]
    bandit := { next := PolicyType.lfu, records := [], selectCalls := 0 }
    settings := { epochDuration := 3600, evictPartialCapacityFilling := true } }

/-- A two-policy cache with live data and counters, for witness instantiation. -/
def acw : AdaptiveCache String Int :=
  { activePolicy := PolicyType.lru
    oldPolicy := PolicyType.undefined
    policies :=
      [(PolicyType.lru, { data := [("a", 1)], cap := 10, ptype := PolicyType.lru,
                          stats := { hits := 2, misses := 1 } }),
       (PolicyType.lfu, { data := [("a", 0)], cap := 10, ptype := PolicyType.lfu,
                          stats := { hits := 3, misses := 4 } })]
    bandit := { next := PolicyType.lru, records := [], selectCalls := 0 }
    settings := { epochDuration := 3600, evictPartialCapacityFilling := true } }

/-- A cache below capacity with the partial-fill switch disabled. -/
def ac5 : AdaptiveCache String Int :=
  { acw with settings := { epochDuration := 3600, evictPartialCapacityFilling := false } }

/-- The fresh two-policy migration cache built from [lruP0, lfuP0]. -/
def cw0 : MigCache String Int :=
  { activePolicy := PolicyType.lru
    oldPolicy := PolicyType.undefined
    policies := [(PolicyType.lru, lruP0), (PolicyType.lfu, lfuP0)]
    migrating := false
    migrateFrom := PolicyType.undefined
    migrationKeys := []
    migrationRealKeys := [] }

/-- Scenario S1 state after the cold switch to LFU from cw1. -/
def cw2 : MigCache String Int :=
  { activePolicy := PolicyType.lfu
    oldPolicy := PolicyType.lru
    policies :=
      [(PolicyType.lru, { data := [("a", 1), ("b", 2)], cap := 10, ptype := PolicyType.lru,
                          stats := { hits := 0, misses := 0 } }),
       (PolicyType.lfu, { data := [], cap := 10, ptype := PolicyType.lfu,
                          stats := { hits := 0, misses := 0 } })]
    migrating := false
    migrateFrom := PolicyType.undefined
    migrationKeys := []
    migrationRealKeys := [] }

/-- A default bandit for constructor witnesses. -/
def bw0 : Bandit := { next := PolicyType.lru, records := [], selectCalls := 0 }

/-- Default settings for constructor witnesses. -/
def sw0 : Settings := { epochDuration := 3600, evictPartialCapacityFilling := true }

/-- An LRU policy of capacity 5, first duplicate for the C10 witness. -/
def lruA : MockPolicy String Int :=
  { data := [], cap := 5, ptype := PolicyType.lru, stats := { hits := 0, misses := 0 } }

/-- An LRU policy of capacity 7, second duplicate for the C10 witness. -/
def lruB : MockPolicy String Int :=
  { data := [], cap := 7, ptype := PolicyType.lru, stats := { hits := 0, misses := 0 } }

/-- The last policy in a supplied list carrying a given type tag. -/
def lastWith (t : PolicyType) : List (MockPolicy K V) → Option (MockPolicy K V)
  | [] => none
  | p :: ps =>
    match lastWith t ps with
    | some q => some q
    | none => if p.ptype = t then some p else none

/-- The ShadowStats reports that one tick emits: one per non-active policy,
carrying its type and its pre-reset counters, in iteration order. -/
def reportsOf (act : PolicyType) (ps : List (PolicyType × MockPolicy K V)) : List ShadowStats :=
  (ps.filter (fun e => !decide (e.2.ptype = act))).map
    (fun e => { policy := e.2.ptype, hits := e.2.stats.hits, misses := e.2.stats.misses })

theorem alookup_aset_self {κ α : Type} [DecidableEq κ] (k : κ) (v : α) (l : List (κ × α)) :
    alookup k (aset k v l) = some v := by
  induction l with
  | nil => simp [aset, alookup]
  | cons e es ih =>
    by_cases h : e.1 = k
    · simp [aset, h, alookup]
    · simp [aset, h, alookup, ih]

theorem alookup_aset_ne {κ α : Type} [DecidableEq κ] {k' k : κ} (v : α) (l : List (κ × α))
    (h : k' ≠ k) : alookup k' (aset k v l) = alookup k' l := by
  induction l with
  | nil => simp [aset, alookup, Ne.symm h]
  | cons e es ih =>
    by_cases he : e.1 = k
    · have hne : ¬ e.1 = k' := by rw [he]; exact Ne.symm h
      simp [aset, he, alookup, Ne.symm h, hne]
    · simp [aset, he, alookup, ih]

theorem alookup_adel_self {κ α : Type} [DecidableEq κ] (k : κ) (l : List (κ × α)) :
    alookup k (adel k l) = none := by
  induction l with
  | nil => simp [adel, alookup]
  | cons e es ih =>
    by_cases h : e.1 = k
    · simpa [adel, List.filter, h] using ih
    · simpa [adel, List.filter, h, alookup] using ih

theorem mem_aset {κ α : Type} [DecidableEq κ] {e : κ × α} {k : κ} {v : α} {l : List (κ × α)}
    (he : e ∈ aset k v l) : e = (k, v) ∨ e ∈ l := by
  induction l with
  | nil => simpa [aset] using he
  | cons a as ih =>
    by_cases h : a.1 = k
    · rcases (by simpa [aset, h] using he : e = (k, v) ∨ e ∈ as) with h1 | h1
      · exact Or.inl h1
      · exact Or.inr (List.mem_cons_of_mem a h1)
    · rcases (by simpa [aset, h] using he : e = a ∨ e ∈ aset k v as) with h1 | h1
      · exact Or.inr (h1 ▸ List.mem_cons_self a as)
      · rcases ih h1 with h2 | h2
        · exact Or.inl h2
        · exact Or.inr (List.mem_cons_of_mem a h2)

theorem mem_keys_aset {κ α : Type} [DecidableEq κ] {s k : κ} (v : α) (l : List (κ × α))
    (hs : s ∈ (aset k v l).map Prod.fst) : s = k ∨ s ∈ l.map Prod.fst := by
  rcases List.mem_map.1 hs with ⟨e, he, rfl⟩
  rcases mem_aset he with h1 | h1
  · exact Or.inl (by rw [h1])
  · exact Or.inr (List.mem_map_of_mem Prod.fst h1)

theorem nodup_keys_aset {κ α : Type} [DecidableEq κ] (k : κ) (v : α) (l : List (κ × α))
    (hnd : (l.map Prod.fst).Nodup) : ((aset k v l).map Prod.fst).Nodup := by
  induction l with
  | nil => simp [aset]
  | cons a as ih =>
    by_cases h : a.1 = k
    · rw [aset]
      simp only [if_pos h, List.map_cons]
      rw [← h]
      simpa using hnd
    · have hnd' := hnd
      rw [List.map_cons, List.nodup_cons] at hnd'
      rw [aset]
      simp only [if_neg h, List.map_cons, List.nodup_cons]
      refine ⟨fun hmem => ?_, ih hnd'.2⟩
      rcases mem_keys_aset v as hmem with h1 | h1
      · exact h h1
      · exact hnd'.1 h1

theorem mem_aset_nodup {κ α : Type} [DecidableEq κ] {e : κ × α} {k : κ} {v : α}
    {l : List (κ × α)} (hnd : (l.map Prod.fst).Nodup) (he : e ∈ aset k v l) :
    e = (k, v) ∨ (e ∈ l ∧ e.1 ≠ k) := by
  induction l with
  | nil => simpa [aset] using he
  | cons a as ih =>
    have hnd' := hnd
    rw [List.map_cons, List.nodup_cons] at hnd'
    by_cases h : a.1 = k
    · rcases (by simpa [aset, h] using he : e = (k, v) ∨ e ∈ as) with h1 | h1
      · exact Or.inl h1
      · refine Or.inr ⟨List.mem_cons_of_mem a h1, fun hk => ?_⟩
        exact hnd'.1 (h ▸ hk ▸ List.mem_map_of_mem Prod.fst h1)
    · rcases (by simpa [aset, h] using he : e = a ∨ e ∈ aset k v as) with h1 | h1
      · exact Or.inr ⟨h1 ▸ List.mem_cons_self a as, h1 ▸ h⟩
      · rcases ih hnd'.2 h1 with h2 | h2
        · exact Or.inl h2
        · exact Or.inr ⟨List.mem_cons_of_mem a h2.1, h2.2⟩

theorem keys_mapShadows (act : PolicyType) (f : MockPolicy K V → MockPolicy K V)
    (ps : List (PolicyType × MockPolicy K V)) :
    (mapShadows act f ps).map Prod.fst = ps.map Prod.fst := by
  induction ps with
  | nil => rfl
  | cons e es ih =>
    by_cases h : e.2.ptype = act <;> simp [mapShadows, h] <;>
      simpa [mapShadows] using ih

theorem alookup_mapShadows_keep {t act : PolicyType} (f : MockPolicy K V → MockPolicy K V)
    {ps : List (PolicyType × MockPolicy K V)} {m : MockPolicy K V}
    (h : alookup t ps = some m) (hm : m.ptype = act) :
    alookup t (mapShadows act f ps) = some m := by
  induction ps with
  | nil => simp [alookup] at h
  | cons e es ih =>
    by_cases he : e.1 = t
    · have hem : e.2 = m := by simpa [alookup, he] using h
      by_cases hp : e.2.ptype = act
      · simp [mapShadows, alookup, hp, he, hem, hm]
      · exact absurd (hem ▸ hm) hp
    · have h' : alookup t es = some m := by simpa [alookup, he] using h
      by_cases hp : e.2.ptype = act <;>
        simpa [mapShadows, alookup, hp, he] using ih h'

theorem alookup_mapShadows_shadow {t act : PolicyType} (f : MockPolicy K V → MockPolicy K V)
    {ps : List (PolicyType × MockPolicy K V)} {m : MockPolicy K V}
    (h : alookup t ps = some m) (hm : ¬ m.ptype = act) :
    alookup t (mapShadows act f ps) = some (f m) := by
  induction ps with
  | nil => simp [alookup] at h
  | cons e es ih =>
    by_cases he : e.1 = t
    · have hem : e.2 = m := by simpa [alookup, he] using h
      have hp : ¬ e.2.ptype = act := by rw [hem]; exact hm
      simp [mapShadows, alookup, hp, he, hem, hm]
    · have h' : alookup t es = some m := by simpa [alookup, he] using h
      by_cases hp : e.2.ptype = act <;>
        simpa [mapShadows, alookup, hp, he] using ih h'

theorem keysMatch_alookup {ps : List (PolicyType × MockPolicy K V)} {t : PolicyType}
    {m : MockPolicy K V} (hkm : keysMatch ps) (h : alookup t ps = some m) :
    m.ptype = t := by
  induction ps with
  | nil => simp [alookup] at h
  | cons e es ih =>
    by_cases he : e.1 = t
    · have hem : e.2 = m := by simpa [alookup, he] using h
      have := hkm e (List.mem_cons_self e es)
      rw [← hem, ← this, he]
    · exact ih (fun x hx => hkm x (List.mem_cons_of_mem e hx))
        (by simpa [alookup, he] using h)

theorem keysMatch_mapShadows {act : PolicyType} {f : MockPolicy K V → MockPolicy K V}
    {ps : List (PolicyType × MockPolicy K V)}
    (hf : ∀ m, (f m).ptype = m.ptype) (hkm : keysMatch ps) :
    keysMatch (mapShadows act f ps) := by
  intro e he
  rcases List.mem_map.1 he with ⟨e0, he0, rfl⟩
  by_cases hp : e0.2.ptype = act <;> simp [hp, hf, hkm e0 he0]

theorem keysMatch_aset {l : List (PolicyType × MockPolicy K V)} {t : PolicyType}
    {v : MockPolicy K V} (hkm : keysMatch l) (hv : v.ptype = t) :
    keysMatch (aset t v l) := by
  intro e he
  rcases mem_aset he with h1 | h1
  · rw [h1, hv]
  · exact hkm e h1

theorem mem_mapShadows {act : PolicyType} {f : MockPolicy K V → MockPolicy K V}
    {ps : List (PolicyType × MockPolicy K V)} {e : PolicyType × MockPolicy K V}
    (he : e ∈ mapShadows act f ps) :
    ∃ e0, e0 ∈ ps ∧ e = (if e0.2.ptype = act then e0 else (e0.1, f e0.2)) := by
  rcases List.mem_map.1 he with ⟨e0, he0, h⟩
  exact ⟨e0, he0, h.symm⟩

theorem shadowReport_fst (act : PolicyType) (ps : List (PolicyType × MockPolicy K V)) (b : Bandit) :
    (shadowReport act ps b).1 = mapShadows act MockPolicy.resetStats ps := by
  induction ps generalizing b with
  | nil => rfl
  | cons e es ih =>
    by_cases h : e.2.ptype = act <;>
      simp [shadowReport, mapShadows, h] <;> simpa [mapShadows] using ih _

theorem shadowReport_snd (act : PolicyType) (ps : List (PolicyType × MockPolicy K V)) (b : Bandit) :
    (shadowReport act ps b).2 = { b with records := b.records ++ reportsOf act ps } := by
  induction ps generalizing b with
  | nil => simp [shadowReport, reportsOf]
  | cons e es ih =>
    by_cases h : e.2.ptype = act
    · simp [shadowReport, h, reportsOf, List.filter_cons, ih]
    · rw [shadowReport]
      simp only [if_neg h]
      rw [ih]
      simp [Bandit.recordStats, reportsOf, List.filter_cons, h]

theorem tickBody_active (c : AdaptiveCache K V) :
    (tickBody c).2.activePolicy = c.bandit.next := by
  by_cases h : c.bandit.next = c.activePolicy <;>
    simp [tickBody, Bandit.selectPolicy, shadowReport_snd, h]

theorem tickBody_policies (c : AdaptiveCache K V) :
    (tickBody c).2.policies = mapShadows c.activePolicy MockPolicy.resetStats c.policies := by
  by_cases h : c.bandit.next = c.activePolicy <;>
    simp [tickBody, Bandit.selectPolicy, shadowReport_snd, shadowReport_fst, h]

theorem tickBody_bandit_records (c : AdaptiveCache K V) :
    (tickBody c).2.bandit.records = c.bandit.records ++ reportsOf c.activePolicy c.policies := by
  by_cases h : c.bandit.next = c.activePolicy <;>
    simp [tickBody, Bandit.selectPolicy, shadowReport_snd, h]

theorem tryChangePolicy_gate (c : AdaptiveCache K V)
    (hgate : c.settings.evictPartialCapacityFilling = true ∨
      ∃ ap, alookup c.activePolicy c.policies = some ap ∧ ap.len = ap.cap) :
    tryChangePolicy c = some (tickBody c) := by
  rcases hgate with h | ⟨ap, hap, hlen⟩
  · simp [tryChangePolicy, h]
  · by_cases hflag : c.settings.evictPartialCapacityFilling
    · simp [tryChangePolicy, hflag]
    · simp [tryChangePolicy, hflag, hap, hlen]

/-- C5: when EvictPartialCapacityFilling is false and the active policy's len
is below its cap, the epoch tick does nothing — tryChangePolicy reports no
change and returns the state completely unchanged, so no shadow stats are
read or reset and the bandit's recordStats and selectPolicy are never
invoked (its records and selectCalls counters are untouched). -/
theorem C5_partial_fill_gate_skips (c : AdaptiveCache K V)
    (hflag : c.settings.evictPartialCapacityFilling = false)
    (ap : MockPolicy K V) (hap : alookup c.activePolicy c.policies = some ap)
    (hlt : ap.len < ap.cap) :
    tryChangePolicy c = some (false, c) := by
  have hne : ap.len ≠ ap.cap := Nat.ne_of_lt hlt
  simp [tryChangePolicy, hflag, hap, hne]

/-- C5 witness: the below-capacity cache ac5 with the flag off is left
untouched by the tick. -/
theorem C5_partial_fill_gate_skips_witness :
    ac5.settings.evictPartialCapacityFilling = false ∧
    alookup ac5.activePolicy ac5.policies =
      some { data := [("a", 1)], cap := 10, ptype := PolicyType.lru,
             stats := { hits := 2, misses := 1 } } ∧
    ({ data := [("a", 1)], cap := 10, ptype := PolicyType.lru,
       stats := { hits := 2, misses := 1 } : MockPolicy String Int }).len <
      ({ data := [("a", 1)], cap := 10, ptype := PolicyType.lru,
         stats := { hits := 2, misses := 1 } : MockPolicy String Int }).cap ∧
    tryChangePolicy ac5 = some (false, ac5) :=
  ⟨rfl, rfl, by decide,
    C5_partial_fill_gate_skips ac5 rfl _ rfl (by decide)⟩

/-- C6: at a tick that passes the partial-fill gate, every non-active policy
has its stats read and reset to zero and a ShadowStats report with its type
and pre-reset hits/misses is handed to the bandit's recordStats, while every
policy of the active type is left completely unchanged (its stats are not
reset). -/
theorem C6_tick_reports_and_resets (c : AdaptiveCache K V)
    (hgate : c.settings.evictPartialCapacityFilling = true ∨
      ∃ ap, alookup c.activePolicy c.policies = some ap ∧ ap.len = ap.cap) :
    ∃ ch c', tryChangePolicy c = some (ch, c') ∧
      (∀ t m, alookup t c.policies = some m → ¬ m.ptype = c.activePolicy →
        alookup t c'.policies = some m.resetStats) ∧
      c'.bandit.records = c.bandit.records ++ reportsOf c.activePolicy c.policies ∧
      (∀ t m, alookup t c.policies = some m → m.ptype = c.activePolicy →
        alookup t c'.policies = some m) := by
  refine ⟨(tickBody c).1, (tickBody c).2, ?_, ?_, ?_, ?_⟩
  · rw [tryChangePolicy_gate c hgate]
  · intro t m hm hne
    rw [tickBody_policies]
    exact alookup_mapShadows_shadow _ hm hne
  · exact tickBody_bandit_records c
  · intro t m hm heq
    rw [tickBody_policies]
    exact alookup_mapShadows_keep _ hm heq

/-- C6 witness: on the two-policy cache acw (flag on), the tick resets the
LFU shadow, reports its counters to the bandit and keeps the active LRU
policy intact. -/
theorem C6_tick_reports_and_resets_witness :
    (acw.settings.evictPartialCapacityFilling = true ∨
      ∃ ap, alookup acw.activePolicy acw.policies = some ap ∧ ap.len = ap.cap) ∧
    ∃ ch c', tryChangePolicy acw = some (ch, c') ∧
      (∀ t m, alookup t acw.policies = some m → ¬ m.ptype = acw.activePolicy →
        alookup t c'.policies = some m.resetStats) ∧
      c'.bandit.records = acw.bandit.records ++ reportsOf acw.activePolicy acw.policies ∧
      (∀ t m, alookup t acw.policies = some m → m.ptype = acw.activePolicy →
        alookup t c'.policies = some m) :=
  ⟨Or.inl rfl, C6_tick_reports_and_resets acw (Or.inl rfl)⟩

/-- C3 counterexample: with only LRU registered and the bandit returning the
unregistered LFU type, the tick switches the active PolicyType to LFU instead
of treating the unknown answer as "no change". -/
theorem C3_counterexample_unregistered_switch :
    NewAdaptiveCache
        [{ data := [], cap := 0, ptype := PolicyType.lru,
           stats := { hits := 0, misses := 0 } }]
        c3cache.bandit (some c3cache.settings) = some (Except.ok c3cache) ∧
    alookup PolicyType.lfu c3cache.policies = none ∧
    c3cache.bandit.next = PolicyType.lfu ∧
    c3cache.activePolicy = PolicyType.lru ∧
    (tryChangePolicy c3cache).map (fun r => r.2.activePolicy) = some PolicyType.lfu := by
  refine ⟨rfl, by decide, rfl, rfl, by decide⟩

/-- C3 (amended): whenever the stats/selection phase of a tick runs (the
partial-fill gate passes), the active PolicyType afterwards is exactly the
PolicyType returned by the bandit's selectPolicy — whether or not that type
is a key of the registered policy map; an unregistered answer different from
the current active therefore changes the active policy rather than being
treated as "no change". -/
theorem C3_amended_switch_follows_bandit (c : AdaptiveCache K V)
    (hgate : c.settings.evictPartialCapacityFilling = true ∨
      ∃ ap, alookup c.activePolicy c.policies = some ap ∧ ap.len = ap.cap) :
    (tryChangePolicy c).map (fun r => r.2.activePolicy) = some c.bandit.next := by
  rw [tryChangePolicy_gate c hgate]
  simp [tickBody_active]

/-- C3 (amended) witness: on the single-policy cache whose bandit answers the
unregistered LFU, the tick makes LFU active. -/
theorem C3_amended_switch_follows_bandit_witness :
    (c3cache.settings.evictPartialCapacityFilling = true ∨
      ∃ ap, alookup c3cache.activePolicy c3cache.policies = some ap ∧ ap.len = ap.cap) ∧
    (tryChangePolicy c3cache).map (fun r => r.2.activePolicy) = some c3cache.bandit.next :=
  ⟨Or.inl rfl, C3_amended_switch_follows_bandit c3cache (Or.inl rfl)⟩

/-- C4: Add gives every registered non-active policy an entry for k holding
the zero value z (written via the shadow add(k, zeroV)), writes (k,v) to the
active policy last, and returns the active policy's evicted flag; afterwards
every shadow policy maps k to z and the active policy maps k to the caller's
value v. -/
theorem C4_add_shadows_then_active (z : V) (c : AdaptiveCache K V)
    (hkm : keysMatch c.policies) (ap : MockPolicy K V)
    (hap : alookup c.activePolicy c.policies = some ap) (k : K) (v : V) :
    ∃ c', c.add z k v = some ((alookup k ap.data).isSome, c') ∧
      (∀ e ∈ c'.policies, ¬ e.2.ptype = c.activePolicy → alookup k e.2.data = some z) ∧
      (alookup c.activePolicy c'.policies).map (fun p => alookup k p.data) =
        some (some v) := by
  have hpt : ap.ptype = c.activePolicy := keysMatch_alookup hkm hap
  have hsh : alookup c.activePolicy
      (mapShadows c.activePolicy (fun m => (m.add k z).2) c.policies) = some ap :=
    alookup_mapShadows_keep _ hap hpt
  refine ⟨{ c with policies := aset c.activePolicy (ap.add k v).2 (mapShadows c.activePolicy (fun m => (m.add k z).2) c.policies) }, ?_, ?_, ?_⟩
  · simp only [AdaptiveCache.add]
    rw [hsh]
    rfl
  · intro e he hne
    rcases mem_aset he with h1 | h1
    · exfalso
      apply hne
      rw [h1]
      exact hpt
    · rcases mem_mapShadows h1 with ⟨e0, _, h2⟩
      by_cases hp : e0.2.ptype = c.activePolicy
      · rw [if_pos hp] at h2
        exact absurd (h2 ▸ hp) hne
      · rw [if_neg hp] at h2
        rw [h2]
        exact alookup_aset_self k z e0.2.data
  · rw [alookup_aset_self]
    simp [MockPolicy.add, alookup_aset_self]

/-- C4 witness: adding ("b", 7) to acw puts ("b", 0) into the LFU shadow,
("b", 7) into the active LRU, and returns false because "b" was absent. -/
theorem C4_add_shadows_then_active_witness :
    keysMatch acw.policies ∧
    alookup acw.activePolicy acw.policies =
      some { data := [("a", 1)], cap := 10, ptype := PolicyType.lru,
             stats := { hits := 2, misses := 1 } } ∧
    ∃ c', AdaptiveCache.add 0 acw "b" 7 =
        some ((alookup "b" [(("a" : String), (1 : Int))]).isSome, c') ∧
      (∀ e ∈ c'.policies, ¬ e.2.ptype = acw.activePolicy → alookup "b" e.2.data = some 0) ∧
      (alookup acw.activePolicy c'.policies).map (fun p => alookup "b" p.data) =
        some (some 7) :=
  ⟨by unfold keysMatch; decide, rfl,
    C4_add_shadows_then_active 0 acw (by unfold keysMatch; decide) _ rfl "b" 7⟩

/-- C8: Remove deletes k from every registered policy — active and all
shadows — so that afterwards no entry of the policy map contains k, and it
returns the active policy's report of whether k was present. -/
theorem C8_remove_everywhere (c : AdaptiveCache K V)
    (hkm : keysMatch c.policies) (hnd : (c.policies.map Prod.fst).Nodup)
    (ap : MockPolicy K V) (hap : alookup c.activePolicy c.policies = some ap)
    (k : K) :
    ∃ c', c.remove k = some ((alookup k ap.data).isSome, c') ∧
      ∀ e ∈ c'.policies, alookup k e.2.data = none := by
  have hpt : ap.ptype = c.activePolicy := keysMatch_alookup hkm hap
  have hsh : alookup c.activePolicy
      (mapShadows c.activePolicy (fun m => (m.remove k).2) c.policies) = some ap :=
    alookup_mapShadows_keep _ hap hpt
  refine ⟨{ c with policies := aset c.activePolicy (ap.remove k).2 (mapShadows c.activePolicy (fun m => (m.remove k).2) c.policies) }, ?_, ?_⟩
  · simp only [AdaptiveCache.remove]
    rw [hsh]
    rfl
  · intro e he
    have hnd' : ((mapShadows c.activePolicy (fun m => (m.remove k).2) c.policies).map
        Prod.fst).Nodup := by
      rw [keys_mapShadows]
      exact hnd
    rcases mem_aset_nodup hnd' he with h1 | ⟨h1, h2⟩
    · rw [h1]
      exact alookup_adel_self k ap.data
    · rcases mem_mapShadows h1 with ⟨e0, he0, h3⟩
      by_cases hp : e0.2.ptype = c.activePolicy
      · exfalso
        rw [if_pos hp] at h3
        exact h2 (h3 ▸ (hkm e0 he0).trans hp)
      · rw [if_neg hp] at h3
        rw [h3]
        exact alookup_adel_self k e0.2.data

/-- C8 witness: removing "a" from acw deletes it from both the active LRU and
the LFU shadow and reports it as present. -/
theorem C8_remove_everywhere_witness :
    keysMatch acw.policies ∧ (acw.policies.map Prod.fst).Nodup ∧
    ∃ c', acw.remove "a" =
        some ((alookup "a" [(("a" : String), (1 : Int))]).isSome, c') ∧
      ∀ e ∈ c'.policies, alookup "a" e.2.data = none :=
  ⟨by unfold keysMatch; decide, by decide,
    C8_remove_everywhere acw (by unfold keysMatch; decide) (by decide) _ rfl "a"⟩

/-- C9: a single external get touches every registered non-active policy
exactly as a direct get on it would — its hits+misses total grows by exactly
one, with hits incremented when the shadow contained k and misses otherwise —
while the caller receives the active policy's result. -/
theorem C9_shadow_counters (z : V) (c : AdaptiveCache K V)
    (hkm : keysMatch c.policies) (ap : MockPolicy K V)
    (hap : alookup c.activePolicy c.policies = some ap) (k : K) :
    ∃ r c', c.get z k = some (r, c') ∧
      ∀ t m, alookup t c.policies = some m → ¬ m.ptype = c.activePolicy →
        alookup t c'.policies = some ((m.get z k).2) ∧
        ((m.get z k).2.stats.hits + (m.get z k).2.stats.misses =
          m.stats.hits + m.stats.misses + 1) ∧
        (m.contains k = true → (m.get z k).2.stats.hits = m.stats.hits + 1) ∧
        (m.contains k = false → (m.get z k).2.stats.misses = m.stats.misses + 1) := by
  have hpt : ap.ptype = c.activePolicy := keysMatch_alookup hkm hap
  have hsh : alookup c.activePolicy
      (mapShadows c.activePolicy (fun m => (m.get z k).2) c.policies) = some ap :=
    alookup_mapShadows_keep _ hap hpt
  refine ⟨(ap.get z k).1, { c with policies := aset c.activePolicy (ap.get z k).2 (mapShadows c.activePolicy (fun m => (m.get z k).2) c.policies) }, ?_, ?_⟩
  · simp only [AdaptiveCache.get]
    rw [hsh]
  · intro t m hm hne
    have ht : m.ptype = t := keysMatch_alookup hkm hm
    have htne : t ≠ c.activePolicy := fun hh => hne (ht.symm ▸ hh)
    refine ⟨?_, ?_, ?_, ?_⟩
    · rw [alookup_aset_ne _ _ htne]
      exact alookup_mapShadows_shadow _ hm hne
    · rw [MockPolicy.get]
      rcases h : alookup k m.data with _ | v <;> simp <;> omega
    · intro hc
      rw [MockPolicy.contains] at hc
      rw [MockPolicy.get]
      rcases h : alookup k m.data with _ | v
      · rw [h] at hc
        simp at hc
      · simp
    · intro hc
      rw [MockPolicy.contains] at hc
      rw [MockPolicy.get]
      rcases h : alookup k m.data with _ | v
      · simp
      · rw [h] at hc
        simp at hc

/-- C9 witness: a get of "a" on acw bumps the LFU shadow's hits (it contained
"a") with total +1, exactly as a direct get on the shadow. -/
theorem C9_shadow_counters_witness :
    keysMatch acw.policies ∧
    ∃ r c', AdaptiveCache.get 0 acw "a" = some (r, c') ∧
      ∀ t m, alookup t acw.policies = some m → ¬ m.ptype = acw.activePolicy →
        alookup t c'.policies = some ((m.get 0 "a").2) ∧
        ((m.get 0 "a").2.stats.hits + (m.get 0 "a").2.stats.misses =
          m.stats.hits + m.stats.misses + 1) ∧
        (m.contains "a" = true → (m.get 0 "a").2.stats.hits = m.stats.hits + 1) ∧
        (m.contains "a" = false → (m.get 0 "a").2.stats.misses = m.stats.misses + 1) :=
  ⟨by unfold keysMatch; decide,
    C9_shadow_counters 0 acw (by unfold keysMatch; decide) _ rfl "a"⟩

/-- C7 counterexample: the non-empty list [lruP0] with supplied settings whose
EpochDuration is 0 makes the constructor panic in time.NewTicker (none) — no
cache and no error value is returned — and a nil settings pointer panics the
same way, so "for every non-empty policy list (with any settings) it returns
a cache and no error" is false. -/
theorem C7_counterexample_nonpositive_duration :
    (([lruP0] : List (MockPolicy String Int)) ≠ []) ∧
    NewAdaptiveCache [lruP0] bw0
      (some { epochDuration := 0, evictPartialCapacityFilling := true }) = none ∧
    NewAdaptiveCache [lruP0] bw0 none = none :=
  ⟨by decide, rfl, rfl⟩

/-- C7 (amended): the empty-policies error is produced exactly for the empty
(or nil) policy list and is the only error the constructor can return; a
non-empty list yields a cache and no error whenever the settings are supplied
with a positive EpochDuration, while a nil settings pointer or a non-positive
EpochDuration makes the constructor panic (in time.NewTicker) instead of
returning; runtime operations never return an error. -/
theorem C7_amended_constructor_behaviour (pols : List (MockPolicy K V)) (b : Bandit)
    (s : Option Settings) :
    (NewAdaptiveCache pols b s = some (Except.error ErrEmptyPoliciesMsg) ↔ pols = []) ∧
    (∀ e, NewAdaptiveCache pols b s = some (Except.error e) → e = ErrEmptyPoliciesMsg) ∧
    (∀ s', pols ≠ [] → s = some s' → 0 < s'.epochDuration →
      ∃ c, NewAdaptiveCache pols b s = some (Except.ok c)) ∧
    (pols ≠ [] → s = none → NewAdaptiveCache pols b s = none) ∧
    (∀ s', pols ≠ [] → s = some s' → s'.epochDuration ≤ 0 →
      NewAdaptiveCache pols b s = none) := by
  cases pols with
  | nil =>
    refine ⟨by simp [NewAdaptiveCache], ?_, by simp, by simp, by simp⟩
    intro e he
    simpa [NewAdaptiveCache] using he.symm
  | cons p rest =>
    rcases s with _ | s'
    · refine ⟨by simp [NewAdaptiveCache], ?_, ?_, fun _ _ => rfl, ?_⟩
      · intro e he
        simp [NewAdaptiveCache] at he
      · intro s' _ hs
        simp at hs
      · intro s' _ hs
        simp at hs
    · by_cases hd : s'.epochDuration ≤ 0
      · refine ⟨by simp [NewAdaptiveCache, hd], ?_, ?_, by simp, ?_⟩
        · intro e he
          simp [NewAdaptiveCache, hd] at he
        · intro s'' _ hs hpos
          rw [Option.some.injEq] at hs
          subst hs
          exact absurd hd (not_le.mpr hpos)
        · intro s'' _ hs _
          rw [Option.some.injEq] at hs
          subst hs
          simp [NewAdaptiveCache, hd]
      · refine ⟨by simp [NewAdaptiveCache, hd], ?_, ?_, by simp, ?_⟩
        · intro e he
          simp [NewAdaptiveCache, hd] at he
        · intro s'' _ hs _
          rw [Option.some.injEq] at hs
          subst hs
          exact ⟨{ activePolicy := p.ptype, oldPolicy := PolicyType.undefined, policies := buildPolicies (p :: rest), bandit := b, settings := s' }, by simp [NewAdaptiveCache, hd]⟩
        · intro s'' _ hs hnp
          rw [Option.some.injEq] at hs
          subst hs
          exact absurd hnp hd

/-- C7 (amended) witness: the empty list errors with the empty-policies
message, [lruP0] with the positive-duration sw0 constructs a cache, and
[lruP0] with a zero duration panics (none). -/
theorem C7_amended_constructor_behaviour_witness :
    NewAdaptiveCache ([] : List (MockPolicy String Int)) bw0 (some sw0) =
      some (Except.error ErrEmptyPoliciesMsg) ∧
    (([lruP0] : List (MockPolicy String Int)) ≠ [] ∧ (0 : Int) < sw0.epochDuration ∧
      ∃ c, NewAdaptiveCache [lruP0] bw0 (some sw0) = some (Except.ok c)) ∧
    (({ epochDuration := 0, evictPartialCapacityFilling := true } : Settings).epochDuration ≤ 0 ∧
      NewAdaptiveCache [lruP0] bw0
        (some { epochDuration := 0, evictPartialCapacityFilling := true }) = none) :=
  ⟨(C7_amended_constructor_behaviour ([] : List (MockPolicy String Int)) bw0 (some sw0)).1.mpr rfl,
    ⟨by decide, by decide,
      (C7_amended_constructor_behaviour [lruP0] bw0 (some sw0)).2.2.1 sw0 (by decide) rfl (by decide)⟩,
    ⟨by decide,
      (C7_amended_constructor_behaviour [lruP0] bw0 (some { epochDuration := 0, evictPartialCapacityFilling := true })).2.2.2.2
        { epochDuration := 0, evictPartialCapacityFilling := true } (by decide) rfl (by decide)⟩⟩

theorem alookup_foldl_aset (pols : List (MockPolicy K V)) (t : PolicyType)
    (m : List (PolicyType × MockPolicy K V)) :
    alookup t (pols.foldl (fun acc p => aset p.ptype p acc) m) =
      match lastWith t pols with
      | some q => some q
      | none => alookup t m := by
  induction pols generalizing m with
  | nil => simp [lastWith]
  | cons p ps ih =>
    rw [List.foldl_cons, ih]
    rcases hl : lastWith t ps with _ | q
    · rw [lastWith, hl]
      by_cases hp : p.ptype = t
      · rw [hp, alookup_aset_self]
        simp [hp]
      · simp only
        rw [if_neg hp]
        exact alookup_aset_ne _ _ (Ne.symm hp)
    · rw [lastWith, hl]

theorem alookup_buildPolicies (pols : List (MockPolicy K V)) (t : PolicyType) :
    alookup t (buildPolicies pols) = lastWith t pols := by
  rw [buildPolicies, alookup_foldl_aset]
  rcases lastWith t pols with _ | q <;> simp [alookup]

theorem nodup_keys_foldl_aset (pols : List (MockPolicy K V))
    (m : List (PolicyType × MockPolicy K V)) (h : (m.map Prod.fst).Nodup) :
    ((pols.foldl (fun acc p => aset p.ptype p acc) m).map Prod.fst).Nodup := by
  induction pols generalizing m with
  | nil => exact h
  | cons p ps ih => exact ih _ (nodup_keys_aset _ _ _ h)

theorem lastWith_isSome_iff (t : PolicyType) (pols : List (MockPolicy K V)) :
    (lastWith t pols).isSome = true ↔ ∃ p ∈ pols, p.ptype = t := by
  induction pols with
  | nil => simp [lastWith]
  | cons p ps ih =>
    rw [lastWith]
    rcases h : lastWith t ps with _ | q
    · have hps : ¬ ∃ p ∈ ps, p.ptype = t := by
        rw [← ih, h]
        simp
      by_cases hp : p.ptype = t <;> simp [hp, hps]
    · have hps : ∃ p ∈ ps, p.ptype = t := by
        rw [← ih, h]
        simp
      rcases hps with ⟨q', hq', hq2⟩
      simp only [Option.isSome_some, true_iff]
      exact ⟨q', List.mem_cons_of_mem p hq', hq2⟩

/-- C10: when the constructor's list carries duplicate PolicyTypes, the later
policy silently replaces the earlier one in the registered map — every map
lookup yields the last-supplied instance of the looked-up type, the map's key
list is duplicate-free, a type is registered iff some supplied policy carries
it, and the initial active type (the first policy's) is likewise served by
the last instance of that type. -/
theorem C10_duplicate_types_last_wins (pols : List (MockPolicy K V))
    (p0 : MockPolicy K V) (rest : List (MockPolicy K V)) (b : Bandit) (s : Option Settings)
    (c : AdaptiveCache K V) (hp : pols = p0 :: rest)
    (hc : NewAdaptiveCache pols b s = some (Except.ok c)) :
    (∀ t, alookup t c.policies = lastWith t pols) ∧
    (c.policies.map Prod.fst).Nodup ∧
    (∀ t, (alookup t c.policies).isSome = true ↔ ∃ p ∈ pols, p.ptype = t) ∧
    c.activePolicy = p0.ptype ∧
    alookup c.activePolicy c.policies = lastWith p0.ptype pols := by
  subst hp
  rcases s with _ | sv
  · simp [NewAdaptiveCache] at hc
  · by_cases hd : sv.epochDuration ≤ 0
    · simp [NewAdaptiveCache, hd] at hc
    · have hcv : c = { activePolicy := p0.ptype
                       oldPolicy := PolicyType.undefined
                       policies := buildPolicies (p0 :: rest)
                       bandit := b
                       settings := sv } := by
        simpa [NewAdaptiveCache, hd] using hc.symm
      subst hcv
      refine ⟨fun t => alookup_buildPolicies _ t, nodup_keys_foldl_aset _ _ (by simp), ?_, rfl, ?_⟩
      · intro t
        rw [alookup_buildPolicies]
        exact lastWith_isSome_iff t _
      · exact alookup_buildPolicies _ _

/-- C10 witness: constructing with [lruA, lruB, lfuP0] (two LRU-typed
policies) registers the later lruB for the LRU key, which is also the initial
active type. -/
theorem C10_duplicate_types_last_wins_witness :
    NewAdaptiveCache [lruA, lruB, lfuP0] bw0 (some sw0) = some (Except.ok
      { activePolicy := PolicyType.lru
        oldPolicy := PolicyType.undefined
        policies := [(PolicyType.lru, lruB), (PolicyType.lfu, lfuP0)]
        bandit := bw0
        settings := sw0 }) ∧
    lastWith PolicyType.lru [lruA, lruB, lfuP0] = some lruB ∧
    ((∀ t, alookup t [(PolicyType.lru, lruB), (PolicyType.lfu, lfuP0)] =
        lastWith t [lruA, lruB, lfuP0]) ∧
      ([(PolicyType.lru, lruB), (PolicyType.lfu, lfuP0)].map Prod.fst).Nodup ∧
      (∀ t, (alookup t [(PolicyType.lru, lruB), (PolicyType.lfu, lfuP0)]).isSome = true ↔
        ∃ p ∈ [lruA, lruB, lfuP0], p.ptype = t) ∧
      PolicyType.lru = lruA.ptype ∧
      alookup PolicyType.lru [(PolicyType.lru, lruB), (PolicyType.lfu, lfuP0)] =
        lastWith lruA.ptype [lruA, lruB, lfuP0]) := by
  refine ⟨rfl, by decide, ?_⟩
  have h := C10_duplicate_types_last_wins [lruA, lruB, lfuP0] lruA [lruB, lfuP0]
    bw0 (some sw0)
    { activePolicy := PolicyType.lru
      oldPolicy := PolicyType.undefined
      policies := [(PolicyType.lru, lruB), (PolicyType.lfu, lfuP0)]
      bandit := bw0
      settings := sw0 }
    rfl rfl
  exact h

theorem ptype_get (z : V) (m : MockPolicy K V) (k : K) :
    ((m.get z k).2).ptype = m.ptype := by
  rw [MockPolicy.get]
  cases h : alookup k m.data <;> rfl

theorem data_get (z : V) (m : MockPolicy K V) (k : K) :
    ((m.get z k).2).data = m.data := by
  rw [MockPolicy.get]
  cases h : alookup k m.data <;> rfl

theorem keysMatch_foldl_aset (pols : List (MockPolicy K V))
    (m : List (PolicyType × MockPolicy K V)) (h : keysMatch m) :
    keysMatch (pols.foldl (fun acc p => aset p.ptype p acc) m) := by
  induction pols generalizing m with
  | nil => exact h
  | cons p ps ih => exact ih _ (keysMatch_aset h rfl)

theorem NewMigCache_ok {pols : List (MockPolicy K V)} {c : MigCache K V}
    (h : NewMigCache pols = Except.ok c) :
    c.migrating = false ∧ keysMatch c.policies := by
  cases pols with
  | nil => simp [NewMigCache] at h
  | cons p rest =>
    have hc : c = { activePolicy := p.ptype
                    oldPolicy := PolicyType.undefined
                    policies := buildPolicies (p :: rest)
                    migrating := false
                    migrateFrom := PolicyType.undefined
                    migrationKeys := []
                    migrationRealKeys := [] } := by
      simpa [NewMigCache] using h.symm
    subst hc
    refine ⟨rfl, keysMatch_foldl_aset _ _ ?_⟩
    intro e he
    simp at he

theorem addM_nomig {z : V} {c c' : MigCache K V} {k : K} {v : V} {ev : Bool}
    (hmig : c.migrating = false) (hkm : keysMatch c.policies)
    (h : c.addM z k v = some (ev, c')) :
    c'.migrating = false ∧ keysMatch c'.policies ∧ c'.activePolicy = c.activePolicy := by
  rw [MigCache.addM] at h
  simp only [hmig, Bool.false_eq_true, if_false] at h
  rcases hap : alookup c.activePolicy
      (mapShadows c.activePolicy (fun m => (m.add k z).2) c.policies) with _ | ap
  · rw [hap] at h
    simp at h
  · rw [hap] at h
    have hkm' : keysMatch (mapShadows c.activePolicy (fun m => (m.add k z).2) c.policies) :=
      keysMatch_mapShadows (fun m => rfl) hkm
    have hpt : ap.ptype = c.activePolicy := keysMatch_alookup hkm' hap
    have hc' : c' = { c with migrating := false, policies := aset c.activePolicy (ap.add k v).2 (mapShadows c.activePolicy (fun m => (m.add k z).2) c.policies) } := by
      have := h
      simp only [Option.some.injEq, Prod.mk.injEq] at this
      exact this.2.symm
    subst hc'
    exact ⟨rfl, keysMatch_aset hkm' hpt, rfl⟩

theorem applyAddsM_nomig (z : V) (adds : List (K × V)) :
    ∀ {c c' : MigCache K V}, c.migrating = false → keysMatch c.policies →
      applyAddsM z c adds = some c' →
      c'.migrating = false ∧ keysMatch c'.policies ∧ c'.activePolicy = c.activePolicy := by
  induction adds with
  | nil =>
    intro c c' h1 h2 h3
    rw [applyAddsM] at h3
    simp only [Option.some.injEq] at h3
    subst h3
    exact ⟨h1, h2, rfl⟩
  | cons kv rest ih =>
    intro c c' h1 h2 h3
    rw [applyAddsM] at h3
    rcases hadd : c.addM z kv.1 kv.2 with _ | r
    · rw [hadd] at h3
      simp at h3
    · rw [hadd] at h3
      obtain ⟨m1, m2, m3⟩ := addM_nomig h1 h2 (show c.addM z kv.1 kv.2 = some (r.1, r.2) by rw [hadd])
      obtain ⟨n1, n2, n3⟩ := ih m1 m2 h3
      exact ⟨n1, n2, n3.trans m3⟩

theorem switchTo_cold_state {c c' : MigCache K V} {toT : PolicyType} (z : V)
    (hkm : keysMatch c.policies) (hne : toT ≠ c.activePolicy)
    (h : c.switchTo MigrationStrategy.cold z toT = some c') :
    c'.activePolicy = toT ∧ c'.migrating = false ∧ keysMatch c'.policies ∧
    ∃ dst, alookup toT c.policies = some dst ∧
      alookup toT c'.policies = some dst.purge := by
  rw [MigCache.switchTo, if_neg hne, MigCache.migrateData] at h
  rcases hdst : alookup toT (c.clearMigrationState).policies with _ | dst
  · rw [hdst] at h
    simp at h
  · rw [hdst] at h
    simp only [Option.some.injEq] at h
    have hdst0 : alookup toT c.policies = some dst := hdst
    have hptd : dst.ptype = toT := keysMatch_alookup hkm hdst0
    subst h
    refine ⟨rfl, rfl, ?_, dst, hdst0, ?_⟩
    · exact keysMatch_aset hkm hptd
    · exact alookup_aset_self toT dst.purge c.policies

theorem getM_no_window_miss (z : V) {c : MigCache K V} {ap : MockPolicy K V} (k : K)
    (hkm : keysMatch c.policies) (hap : alookup c.activePolicy c.policies = some ap)
    (hdata : alookup k ap.data = none) (hmig : c.migrating = false) :
    ∃ res, c.getM z k = some ((z, false), res) := by
  have hpt : ap.ptype = c.activePolicy := keysMatch_alookup hkm hap
  have hsh : alookup c.activePolicy
      (mapShadows c.activePolicy (fun m => (m.get z k).2) c.policies) = some ap :=
    alookup_mapShadows_keep _ hap hpt
  refine ⟨{ c with policies := aset c.activePolicy (ap.get z k).2 (mapShadows c.activePolicy (fun m => (m.get z k).2) c.policies) }, ?_⟩
  rw [MigCache.getM]
  rw [hsh]
  have hr : ap.get z k = ((z, false), { ap with stats := { ap.stats with misses := ap.stats.misses + 1 } }) := by
    rw [MockPolicy.get, hdata]
  rw [hr]
  simp [hmig, hr]

/-- C1: for every sequence of adds on a freshly constructed cache followed by
a cold-strategy switch to a different policy type, the newly active policy's
len is 0 immediately after the switch, and a subsequent get of any previously
added key returns the zero value with found = false. -/
theorem C1_cold_switch_starts_empty (z : V) (pols : List (MockPolicy K V))
    (adds : List (K × V)) (toT : PolicyType) (c0 c1 c2 : MigCache K V)
    (h0 : NewMigCache pols = Except.ok c0)
    (h1 : applyAddsM z c0 adds = some c1)
    (h2 : c1.switchTo MigrationStrategy.cold z toT = some c2)
    (h3 : toT ≠ c1.activePolicy) :
    c2.lenM = some 0 ∧
    ∀ kk ∈ adds.map Prod.fst, ∃ res, c2.getM z kk = some ((z, false), res) := by
  obtain ⟨hm0, hk0⟩ := NewMigCache_ok h0
  obtain ⟨hm1, hk1, -⟩ := applyAddsM_nomig z adds hm0 hk0 h1
  obtain ⟨hact, hm2, hk2, dst, hdst, hdst2⟩ := switchTo_cold_state z hk1 h3 h2
  have hap2 : alookup c2.activePolicy c2.policies = some dst.purge := by
    rw [hact]
    exact hdst2
  constructor
  · rw [MigCache.lenM, hap2]
    rfl
  · intro kk _
    exact getM_no_window_miss z kk hk2 hap2 rfl hm2

/-- C1 witness: scenario S1 — add("a",1), add("b",2), cold switch to LFU; the
new active policy is empty and both keys miss with the zero value. -/
theorem C1_cold_switch_starts_empty_witness :
    NewMigCache [lruP0, lfuP0] = Except.ok cw0 ∧
    applyAddsM 0 cw0 [("a", 1), ("b", 2)] = some cw1 ∧
    cw1.switchTo MigrationStrategy.cold 0 PolicyType.lfu = some cw2 ∧
    PolicyType.lfu ≠ cw1.activePolicy ∧
    (cw2.lenM = some 0 ∧
      ∀ kk ∈ [(("a" : String), (1 : Int)), ("b", 2)].map Prod.fst,
        ∃ res, cw2.getM 0 kk = some ((0, false), res)) :=
  ⟨rfl, by decide, by decide, by decide,
    C1_cold_switch_starts_empty 0 [lruP0, lfuP0] [("a", 1), ("b", 2)] PolicyType.lfu
      cw0 cw1 cw2 rfl (by decide) (by decide) (by decide)⟩

/-- C2: during an active gradual window, when a get misses in the active
policy and the key is still eligible, the core promotes it from the migration
source: it reads the source with peek (the only change to the source is the
ordinary shadow-read counter update — its data is untouched), inserts the
value into the active policy, returns (value, true), and removes the key from
the eligible set. -/
theorem C2_gradual_promotion (z : V) (c : MigCache K V) (k : K)
    (hkm : keysMatch c.policies) (hmig : c.migrating = true)
    (helig : k ∈ c.migrationRealKeys) (hnd : c.migrationRealKeys.Nodup)
    (ap : MockPolicy K V) (hap : alookup c.activePolicy c.policies = some ap)
    (hmiss : alookup k ap.data = none)
    (src : MockPolicy K V) (hsrc : alookup c.migrateFrom c.policies = some src)
    (hne : ¬ c.migrateFrom = c.activePolicy)
    (v : V) (hv : alookup k src.data = some v) :
    ∃ c', c.getM z k = some ((v, true), c') ∧
      (alookup c.activePolicy c'.policies).map (fun p => alookup k p.data) =
        some (some v) ∧
      (alookup c.migrateFrom c'.policies).map MockPolicy.data = some src.data ∧
      k ∉ c'.migrationRealKeys := by
  have hptap : ap.ptype = c.activePolicy := keysMatch_alookup hkm hap
  have hptsrc : src.ptype = c.migrateFrom := keysMatch_alookup hkm hsrc
  have hsrcne : ¬ src.ptype = c.activePolicy := by rw [hptsrc]; exact hne
  have hsh := alookup_mapShadows_keep (fun m => (m.get z k).2) hap hptap
  have hshsrc := alookup_mapShadows_shadow (fun m => (m.get z k).2) hsrc hsrcne
  have hr : ap.get z k = ((z, false),
      { ap with stats := { ap.stats with misses := ap.stats.misses + 1 } }) := by
    rw [MockPolicy.get, hmiss]
  have hmf1 : alookup c.migrateFrom (aset c.activePolicy { ap with stats := { ap.stats with misses := ap.stats.misses + 1 } } (mapShadows c.activePolicy (fun m => (m.get z k).2) c.policies)) = some ((src.get z k).2) := by
    rw [alookup_aset_ne _ _ hne]
    exact hshsrc
  have hpeek : ((src.get z k).2).peek z k = (v, true) := by
    rw [MockPolicy.peek, data_get, hv]
  have hact1 : alookup c.activePolicy (aset c.activePolicy { ap with stats := { ap.stats with misses := ap.stats.misses + 1 } } (mapShadows c.activePolicy (fun m => (m.get z k).2) c.policies)) = some { ap with stats := { ap.stats with misses := ap.stats.misses + 1 } } :=
    alookup_aset_self _ _ _
  simp only [MigCache.getM, hsh, hr, Bool.false_eq_true, if_false, hmig, helig, true_and,
    if_true, hmf1, hpeek, hact1]
  refine ⟨_, rfl, ?_, ?_, ?_⟩
  · by_cases hemp : (c.migrationRealKeys.erase k).isEmpty = true <;>
      simp [hemp, MigCache.clearMigrationState, MockPolicy.add, alookup_aset_self]
  · by_cases hemp : (c.migrationRealKeys.erase k).isEmpty = true <;>
      simp [hemp, MigCache.clearMigrationState, alookup_aset_ne _ _ hne, hshsrc, data_get]
  · by_cases hemp : (c.migrationRealKeys.erase k).isEmpty = true
    · simp [hemp, MigCache.clearMigrationState]
    · simp only [if_neg hemp]
      exact List.Nodup.not_mem_erase hnd

/-- C2 witness: scenario S4 — after add("a",42) and a gradual switch to LFU
(state s4c, reachable by the recorded chain), the first get("a") promotes and
returns (42,true), and a second get("a") hits the new active policy directly
with (42,true). -/
theorem C2_gradual_promotion_witness :
    (applyAddsM 0 cw0 [("a", 42)]).bind
        (fun c => c.switchTo MigrationStrategy.gradual 0 PolicyType.lfu) = some s4c ∧
    ((s4c.getM 0 "a").map Prod.fst = some (42, true) ∧
      ((s4c.getM 0 "a").bind (fun r => r.2.getM 0 "a")).map Prod.fst = some (42, true)) ∧
    (∃ c', s4c.getM 0 "a" = some ((42, true), c') ∧
      (alookup s4c.activePolicy c'.policies).map (fun p => alookup "a" p.data) =
        some (some 42) ∧
      (alookup s4c.migrateFrom c'.policies).map MockPolicy.data =
        some [("a", 42)] ∧
      "a" ∉ c'.migrationRealKeys) :=
  ⟨by decide, ⟨by decide, by decide⟩,
    C2_gradual_promotion 0 s4c "a" (by unfold keysMatch; decide) rfl (by decide) (by decide)
      _ rfl rfl _ rfl (by decide) 42 rfl⟩
